import Mathlib

/-!
Verification of the HoverPal repository against its natural-language
specification.

The development shallowly embeds three parts of the code base:

* the authenticated-encryption envelope of
  `udp_connect/udp_server/server_encryption.py` (`encrypt_data`) and
  `udp_connect/udp_client/client_encryption.py` (`decrypt_data`);
* the control-plane state machine of the Pi WebSocket server
  (`websocket_server/Pi/server_core.py` and
  `websocket_server/Pi/server_commands.py`);
* the consumer-side recording pipeline of the Jetson client
  (`websocket_server/Jetson/client_core.py`).

Byte strings are modelled as `List Nat`; machine `u32` arithmetic is kept
explicit with `% 2 ^ 32` style reasoning where it matters.  The external
ChaCha20-Poly1305 library (pycryptodome) is not part of the repository, so
it is abstracted as an `AEAD` record of pure functions; the repository's
own envelope packing and parsing code is embedded verbatim around it.
-/

namespace HoverPal

/-! ## Cipher envelope (server_encryption.py / client_encryption.py) -/

/-- `struct.pack("<I", n)`: the 4 little-endian bytes of `n` (mod `2 ^ 32`). -/
def u32le_pack (n : Nat) : List Nat :=
  [n % 256, (n / 256) % 256, (n / 65536) % 256, (n / 16777216) % 256]

/-- `struct.unpack("<I", bs)[0]` on the first four bytes of `bs`. -/
def u32le_unpack (bs : List Nat) : Nat :=
  bs.getD 0 0 + 256 * bs.getD 1 0 + 65536 * bs.getD 2 0 + 16777216 * bs.getD 3 0

/-- Abstract interface of the external ChaCha20-Poly1305 primitive
(pycryptodome), which is a dependency and not code of this repository:
`enc key nonce plaintext` is the raw ciphertext, `mac key nonce ciphertext`
is the 16-byte authentication tag produced by `encrypt_and_digest` and
checked by `decrypt_and_verify`, and `dec key nonce ciphertext` is the raw
decryption. -/
structure AEAD where
  enc : List Nat → List Nat → List Nat → List Nat
  mac : List Nat → List Nat → List Nat → List Nat
  dec : List Nat → List Nat → List Nat → List Nat

/-- The typed failures of `decrypt_data`: the two early `return None`
branches (truncated envelope) and the `except` branch (tag mismatch). -/
inductive DecryptFailure where
  | Truncated : DecryptFailure
  | AuthenticationFailure : DecryptFailure
deriving DecidableEq

/-- `server_encryption.encrypt_data(data, data_key)`: draw a 12-byte nonce,
encrypt-and-digest, and serialize as
`[u32-LE len(ciphertext)][nonce][tag][ciphertext]`.  The fresh random nonce
of `get_random_bytes(12)` is passed in as the `nonce` argument. -/
def encrypt_data (A : AEAD) (data_key : List Nat) (nonce : List Nat)
    (data : List Nat) : List Nat :=
  u32le_pack (A.enc data_key nonce data).length ++ nonce ++
    A.mac data_key nonce (A.enc data_key nonce data) ++ A.enc data_key nonce data

/-- `client_encryption.decrypt_data(data)`: reject inputs shorter than
`4+12+16` bytes, read the declared u32-LE ciphertext length, reject inputs
shorter than `4+12+16+len`, slice out nonce `data[4:16]`, tag
`data[16:32]`, ciphertext `data[32:32+len]`, then `decrypt_and_verify`. -/
def decrypt_data (A : AEAD) (data_key : List Nat) (data : List Nat) :
    Except DecryptFailure (List Nat) :=
  if data.length < 4 + 12 + 16 then .error .Truncated
  else if data.length < 4 + 12 + 16 + u32le_unpack (data.take 4) then
    .error .Truncated
  else if A.mac data_key ((data.drop 4).take 12)
      ((data.drop 32).take (u32le_unpack (data.take 4))) = (data.drop 16).take 16
  then .ok (A.dec data_key ((data.drop 4).take 12)
      ((data.drop 32).take (u32le_unpack (data.take 4))))
  else .error .AuthenticationFailure

/-! ## Pi server state machine (server_core.py / server_commands.py) -/

/-- The module-scope globals of `server_core.py`: `connected_clients`,
`controlling_client`, `streaming_active`, `recording_active`.  Connections
(`WebSocketServerProtocol` objects, compared by identity) are modelled as
natural-number handles. -/
structure ServerState where
  connected : List Nat
  controlling_client : Option Nat
  streaming_active : Bool
  recording_active : Bool
deriving DecidableEq

/-- The initial module state: empty connection set, no controller, both
flags false. -/
def initState : ServerState :=
  { connected := [], controlling_client := none,
    streaming_active := false, recording_active := false }

/-- `server_core.broadcast_text(message)`: send `message` to every
connection in `connected_clients` whose `ws.open` is true.  Returns the
list of (recipient, message) sends issued. -/
def broadcast_text (isOpen : Nat → Bool) (connected : List Nat)
    (message : String) : List (Nat × String) :=
  (connected.filter isOpen).map (fun ws => (ws, message))

/-- One iteration of `server_commands.handle_incoming_messages` on an
(already stripped and upper-cased) text command `cmd` from connection
`websocket`: the `elif` chain over the six commands, returning the updated
global state together with the broadcast sends it issued, in order. -/
def handle_command (isOpen : Nat → Bool) (websocket : Nat) (cmd : String)
    (s : ServerState) : ServerState × List (Nat × String) :=
  if cmd = "START_LINK" then
    (s, [])
  else if cmd = "STOP_LINK" then
    if s.controlling_client = some websocket then
      if s.streaming_active ∨ s.recording_active then
        ({ s with streaming_active := false, recording_active := false,
                  controlling_client := none }, [])
      else ({ s with controlling_client := none }, [])
    else (s, [])
  else if cmd = "START_STREAM" then
    if ¬s.streaming_active then
      ({ s with streaming_active := true, controlling_client := some websocket },
       broadcast_text isOpen s.connected "STREAM_STARTED")
    else (s, broadcast_text isOpen s.connected "STREAM_STARTED")
  else if cmd = "STOP_STREAM" then
    if s.controlling_client = some websocket ∧
        (s.streaming_active ∨ s.recording_active) then
      if s.recording_active then
        ({ s with recording_active := false, streaming_active := false,
                  controlling_client := none },
         broadcast_text isOpen s.connected "RECORD_STOPPED" ++
           broadcast_text isOpen s.connected "STREAM_STOPPED")
      else
        ({ s with streaming_active := false, controlling_client := none },
         broadcast_text isOpen s.connected "STREAM_STOPPED")
    else (s, broadcast_text isOpen s.connected "STREAM_STOPPED")
  else if cmd = "START_RECORD" then
    if ¬s.streaming_active then
      (s, broadcast_text isOpen s.connected "RECORD_STOPPED")
    else if s.controlling_client = some websocket then
      ({ s with recording_active := true },
       broadcast_text isOpen s.connected "RECORD_STARTED")
    else (s, broadcast_text isOpen s.connected "RECORD_STARTED")
  else if cmd = "STOP_RECORD" then
    if s.controlling_client = some websocket ∧ s.recording_active then
      ({ s with recording_active := false },
       broadcast_text isOpen s.connected "RECORD_STOPPED")
    else (s, broadcast_text isOpen s.connected "RECORD_STOPPED")
  else (s, [])

/-- `server_core.register_client(websocket)`: add the connection to the
`connected_clients` set. -/
def register_client (websocket : Nat) (s : ServerState) : ServerState :=
  { s with connected :=
      if websocket ∈ s.connected then s.connected
      else s.connected ++ [websocket] }

/-- `server_core.unregister_client(websocket)`: if the disconnecting
connection is `controlling_client`, forcibly stop streaming/recording when
either flag is active and clear the controller slot; then discard the
connection from `connected_clients`. -/
def unregister_client (websocket : Nat) (s : ServerState) : ServerState :=
  if s.controlling_client = some websocket then
    if s.streaming_active ∨ s.recording_active then
      { s with streaming_active := false, recording_active := false,
               controlling_client := none,
               connected := s.connected.filter (fun c => c != websocket) }
    else
      { s with controlling_client := none,
               connected := s.connected.filter (fun c => c != websocket) }
  else
    { s with connected := s.connected.filter (fun c => c != websocket) }

/-- The events that mutate the server's global state: a connection
registering, unregistering, or delivering one text command. -/
inductive Event where
  | register : Nat → Event
  | unregister : Nat → Event
  | message : Nat → String → Event

/-- Apply one event to the server state. -/
def stepEvent (isOpen : Nat → Bool) (s : ServerState) (e : Event) :
    ServerState :=
  match e with
  | .register ws => register_client ws s
  | .unregister ws => unregister_client ws s
  | .message ws cmd => (handle_command isOpen ws cmd s).1

/-- The state reached from `initState` after a sequence of events. -/
def runEvents (isOpen : Nat → Bool) (es : List Event) : ServerState :=
  es.foldl (stepEvent isOpen) initState

/-- The combined reachable-state invariant of the session registry:
`recording_active` implies `streaming_active`, and `streaming_active`
holds exactly when the controller slot is occupied. -/
def SessionInv (s : ServerState) : Prop :=
  (s.recording_active = true → s.streaming_active = true) ∧
    (s.streaming_active = true ↔ s.controlling_client ≠ none)

/-! ## Jetson consumer recording pipeline (client_core.py) -/

/-- The observable file-system / process side effects of the Jetson
client's recording pipeline, in the order they are performed. -/
inductive ClientEffect where
  | mkdir : String → ClientEffect
  | color_correct : String → ClientEffect
  | run_encoder : String → String → ClientEffect
  | remove_dir : String → ClientEffect
deriving DecidableEq

/-- The module-scope globals of `client_core.py` relevant to recording:
`record_active`, `record_dir`, `first_frame_timestamp` (time modelled as a
natural number). -/
structure ClientState where
  record_active : Bool
  record_dir : String
  first_frame_timestamp : Option Nat
deriving DecidableEq

/-- `client_core.finalize_recording()`: glob the persisted `*.jpg` frames
(passed in as `frames`); if none, skip ffmpeg entirely and return; else
name the output container after `first_frame_timestamp` (defaulting to the
current time when unset) and invoke ffmpeg.  The encoder's exit code
`encoderExit` is only logged and does not alter the effects. -/
def finalize_recording (record_dir : String) (frames : List String)
    (first_frame_timestamp : Option Nat) (now : Nat) (encoderExit : Int) :
    List ClientEffect :=
  if frames = [] then []
  else
    [ClientEffect.run_encoder record_dir
      ("VIDEO_" ++ toString (first_frame_timestamp.getD now) ++ ".mkv")]

/-- `client_core.handle_incoming_text(text)`: on `RECORD_STARTED` create
the `videos` directory and a fresh `record_temp` directory (its
date-derived name passed in as `newDir`), set `record_active` and reset the
first-frame timestamp; on `RECORD_STOPPED` while recording, clear the flag,
color-correct the folder, finalize via ffmpeg, and remove the frame
directory unconditionally; otherwise no effect.  `frames` is the `*.jpg`
listing of `record_dir` seen by `finalize_recording`, `now` the current
time and `encoderExit` the ffmpeg exit status. -/
def handle_incoming_text (text : String) (s : ClientState)
    (frames : List String) (now : Nat) (newDir : String) (encoderExit : Int) :
    ClientState × List ClientEffect :=
  if text = "RECORD_STARTED" then
    ({ record_active := true, record_dir := newDir,
       first_frame_timestamp := none },
     [ClientEffect.mkdir "videos", ClientEffect.mkdir newDir])
  else if text = "RECORD_STOPPED" then
    if s.record_active then
      ({ record_active := false, record_dir := "",
         first_frame_timestamp := none },
       ClientEffect.color_correct s.record_dir ::
         finalize_recording s.record_dir frames s.first_frame_timestamp now
           encoderExit ++ [ClientEffect.remove_dir s.record_dir])
    else (s, [])
  else (s, [])


/-! ## Witness instances

A concrete `AEAD` instance and sample states, used only to instantiate
universally quantified theorems at concrete inputs. -/

/-- A degenerate but law-abiding AEAD instance: the identity cipher with a
constant 16-byte tag.  It satisfies the round-trip and length laws assumed
of the external library, which is all the envelope theorems rely on. -/
def idAEAD : AEAD :=
  { enc := fun _ _ pt => pt
    mac := fun _ _ _ => List.replicate 16 0
    dec := fun _ _ ct => ct }

/-- A 32-byte all-zero key. -/
def key0 : List Nat := List.replicate 32 0

/-- A 12-byte all-zero nonce. -/
def nonce0 : List Nat := List.replicate 12 0

/-- A sample server state: connection 0 is the controller and is
streaming and recording; connection 1 is also connected. -/
def sampleStreamingState : ServerState :=
  { connected := [0, 1], controlling_client := some 0,
    streaming_active := true, recording_active := true }

/-- A sample Jetson client state in the middle of a recording. -/
def sampleClientState : ClientState :=
  { record_active := true, record_dir := "videos/record_temp_x",
    first_frame_timestamp := some 7 }

/-- A sample event trace: connection 0 registers, starts the stream and
starts recording. -/
def sampleEvents : List Event :=
  [Event.register 0, Event.message 0 "START_STREAM",
   Event.message 0 "START_RECORD"]

/-! ## Helper lemmas -/

theorem u32le_pack_length (n : Nat) : (u32le_pack n).length = 4 := rfl

theorem u32le_unpack_pack (n : Nat) (h : n < 2 ^ 32) :
    u32le_unpack (u32le_pack n) = n := by
  show n % 256 + 256 * (n / 256 % 256) + 65536 * (n / 65536 % 256) +
    16777216 * (n / 16777216 % 256) = n
  omega

theorem sessionInv_init : SessionInv initState := by
  constructor <;> simp [initState, SessionInv]

theorem sessionInv_handle (isOpen : Nat → Bool) (ws : Nat) (cmd : String)
    (s : ServerState) (h : SessionInv s) :
    SessionInv (handle_command isOpen ws cmd s).1 := by
  obtain ⟨h1, h2⟩ := h
  unfold handle_command SessionInv
  split_ifs <;> simp_all

theorem sessionInv_register (ws : Nat) (s : ServerState) (h : SessionInv s) :
    SessionInv (register_client ws s) := by
  obtain ⟨h1, h2⟩ := h
  unfold register_client SessionInv
  split_ifs <;> simp_all

theorem sessionInv_unregister (ws : Nat) (s : ServerState) (h : SessionInv s) :
    SessionInv (unregister_client ws s) := by
  obtain ⟨h1, h2⟩ := h
  unfold unregister_client SessionInv
  split_ifs <;> simp_all

theorem sessionInv_step (isOpen : Nat → Bool) (s : ServerState) (e : Event)
    (h : SessionInv s) : SessionInv (stepEvent isOpen s e) := by
  cases e with
  | register ws => exact sessionInv_register ws s h
  | unregister ws => exact sessionInv_unregister ws s h
  | message ws cmd => exact sessionInv_handle isOpen ws cmd s h

theorem sessionInv_run (isOpen : Nat → Bool) (es : List Event) :
    SessionInv (runEvents isOpen es) := by
  unfold runEvents
  have h : ∀ (s : ServerState), SessionInv s →
      SessionInv (es.foldl (stepEvent isOpen) s) := by
    induction es with
    | nil => intro s hs; exact hs
    | cons e es ih =>
        intro s hs
        exact ih _ (sessionInv_step isOpen s e hs)
  exact h initState sessionInv_init

theorem decrypt_envelope (A : AEAD) (k nonce tag ct : List Nat)
    (hn : nonce.length = 12) (htag : tag.length = 16)
    (hct : ct.length < 2 ^ 32) :
    decrypt_data A k (u32le_pack ct.length ++ nonce ++ tag ++ ct) =
      if A.mac k nonce ct = tag then .ok (A.dec k nonce ct)
      else .error .AuthenticationFailure := by
  have hassoc : ((u32le_pack ct.length ++ nonce) ++ tag) ++ ct =
      u32le_pack ct.length ++ (nonce ++ (tag ++ ct)) := by
    simp [List.append_assoc]
  have htake4 : (((u32le_pack ct.length ++ nonce) ++ tag) ++ ct).take 4 =
      u32le_pack ct.length := by
    rw [hassoc]; exact List.take_left' (u32le_pack_length _)
  have hdeclared :
      u32le_unpack ((((u32le_pack ct.length ++ nonce) ++ tag) ++ ct).take 4) =
        ct.length := by
    rw [htake4]; exact u32le_unpack_pack _ hct
  have hlen : (((u32le_pack ct.length ++ nonce) ++ tag) ++ ct).length =
      32 + ct.length := by
    simp [List.length_append, u32le_pack_length, hn, htag]; omega
  have hdrop4 : (((u32le_pack ct.length ++ nonce) ++ tag) ++ ct).drop 4 =
      nonce ++ (tag ++ ct) := by
    rw [hassoc]; exact List.drop_left' (u32le_pack_length _)
  have hnonce : ((((u32le_pack ct.length ++ nonce) ++ tag) ++ ct).drop 4).take 12 =
      nonce := by
    rw [hdrop4]; exact List.take_left' hn
  have hlen16 : (u32le_pack ct.length ++ nonce).length = 16 := by
    simp [u32le_pack_length, hn]
  have hdrop16 : (((u32le_pack ct.length ++ nonce) ++ tag) ++ ct).drop 16 =
      tag ++ ct := by
    rw [List.append_assoc (u32le_pack ct.length ++ nonce) tag ct]
    exact List.drop_left' hlen16
  have htagslice :
      ((((u32le_pack ct.length ++ nonce) ++ tag) ++ ct).drop 16).take 16 = tag := by
    rw [hdrop16]; exact List.take_left' htag
  have hlen32 : ((u32le_pack ct.length ++ nonce) ++ tag).length = 32 := by
    simp [u32le_pack_length, hn, htag]
  have hdrop32 : (((u32le_pack ct.length ++ nonce) ++ tag) ++ ct).drop 32 =
      ct := List.drop_left' hlen32
  have hctslice :
      ((((u32le_pack ct.length ++ nonce) ++ tag) ++ ct).drop 32).take
        (u32le_unpack ((((u32le_pack ct.length ++ nonce) ++ tag) ++ ct).take 4)) =
      ct := by
    rw [hdrop32, hdeclared]; exact List.take_length ct
  unfold decrypt_data
  rw [if_neg (by rw [hlen]; omega),
    if_neg (by rw [hlen, hdeclared]; omega),
    hnonce, hctslice, htagslice]

/-- C1: decrypting an `encrypt_data` packet with the same key returns the
original plaintext.  The external-library assumptions are exactly those of
ChaCha20-Poly1305: the nonce is 12 bytes, the tag 16 bytes, raw decryption
inverts raw encryption under the same key and nonce, and the ciphertext
length fits a u32. -/
theorem claim_C1 (A : AEAD) (k nonce m : List Nat)
    (hk : k.length = 32) (hn : nonce.length = 12)
    (htag : (A.mac k nonce (A.enc k nonce m)).length = 16)
    (hct : (A.enc k nonce m).length < 2 ^ 32)
    (hdec : A.dec k nonce (A.enc k nonce m) = m) :
    decrypt_data A k (encrypt_data A k nonce m) = .ok m := by
  unfold encrypt_data
  rw [decrypt_envelope A k nonce _ _ hn htag hct, if_pos rfl, hdec]

theorem claim_C1_witness :
    decrypt_data idAEAD key0 (encrypt_data idAEAD key0 nonce0 [1, 2, 3]) =
      .ok [1, 2, 3] :=
  claim_C1 idAEAD key0 nonce0 [1, 2, 3] (by decide) (by decide) (by decide)
    (by decide) (by decide)

/-- C2: `decrypt_data` is total with a typed result on every input: it
fails with `Truncated` whenever the input is shorter than 32 bytes or the
declared u32-LE length exceeds the remaining bytes, fails with
`AuthenticationFailure` whenever tag verification fails, and otherwise
returns the plaintext. -/
theorem claim_C2 (A : AEAD) (k data : List Nat) :
    ((∃ m, decrypt_data A k data = .ok m) ∨
      decrypt_data A k data = .error .Truncated ∨
      decrypt_data A k data = .error .AuthenticationFailure) ∧
    (data.length < 32 ∨ data.length < 32 + u32le_unpack (data.take 4) →
      decrypt_data A k data = .error .Truncated) ∧
    (32 + u32le_unpack (data.take 4) ≤ data.length →
      A.mac k ((data.drop 4).take 12)
          ((data.drop 32).take (u32le_unpack (data.take 4))) ≠
        (data.drop 16).take 16 →
      decrypt_data A k data = .error .AuthenticationFailure) ∧
    (32 + u32le_unpack (data.take 4) ≤ data.length →
      A.mac k ((data.drop 4).take 12)
          ((data.drop 32).take (u32le_unpack (data.take 4))) =
        (data.drop 16).take 16 →
      decrypt_data A k data =
        .ok (A.dec k ((data.drop 4).take 12)
          ((data.drop 32).take (u32le_unpack (data.take 4))))) := by
  unfold decrypt_data
  split_ifs with h1 h2 h3
  · exact ⟨Or.inr (Or.inl rfl), fun _ => rfl,
      fun hl _ => absurd hl (by omega), fun hl _ => absurd hl (by omega)⟩
  · exact ⟨Or.inr (Or.inl rfl), fun _ => rfl,
      fun hl _ => absurd hl (by omega), fun hl _ => absurd hl (by omega)⟩
  · exact ⟨Or.inl ⟨_, rfl⟩, fun hl => absurd hl (by omega),
      fun _ hne => absurd h3 hne, fun _ _ => rfl⟩
  · exact ⟨Or.inr (Or.inr rfl), fun hl => absurd hl (by omega),
      fun _ _ => rfl, fun _ heq => absurd heq h3⟩

theorem claim_C2_witness :
    decrypt_data idAEAD key0 [] = Except.error DecryptFailure.Truncated ∧
    decrypt_data idAEAD key0 (u32le_pack 0 ++ nonce0 ++ List.replicate 16 1) =
      Except.error DecryptFailure.AuthenticationFailure ∧
    decrypt_data idAEAD key0 (u32le_pack 0 ++ nonce0 ++ List.replicate 16 0) =
      Except.ok [] := by
  refine ⟨(claim_C2 idAEAD key0 []).2.1 (Or.inl (by decide)),
    (claim_C2 idAEAD key0 _).2.2.1 (by decide) (by decide), ?_⟩
  exact ((claim_C2 idAEAD key0
    (u32le_pack 0 ++ nonce0 ++ List.replicate 16 0)).2.2.2 (by decide)
      (by decide)).trans rfl

/-- C9: on receiving RECORD_STOPPED while the local recording flag is
set, the flag is flipped off; when no frames were persisted the encoder
invocation is skipped entirely (the effects are just the channel-order
correction pass and the directory removal); and the intermediate frame
directory is always removed as the last effect, for every encoder exit
status including non-zero ones. -/
theorem claim_C9 (s : ClientState) (frames : List String) (now : Nat)
    (newDir : String) (encoderExit : Int) (h : s.record_active = true) :
    (handle_incoming_text "RECORD_STOPPED" s frames now newDir
      encoderExit).1.record_active = false ∧
    (frames = [] →
      (handle_incoming_text "RECORD_STOPPED" s frames now newDir
        encoderExit).2 =
        [ClientEffect.color_correct s.record_dir,
         ClientEffect.remove_dir s.record_dir]) ∧
    (handle_incoming_text "RECORD_STOPPED" s frames now newDir
      encoderExit).2.getLast? =
      some (ClientEffect.remove_dir s.record_dir) := by
  unfold handle_incoming_text
  rw [if_neg (by decide), if_pos rfl, if_pos h]
  refine ⟨rfl, fun hf => by simp [finalize_recording, hf], ?_⟩
  show (ClientEffect.color_correct s.record_dir ::
    (finalize_recording s.record_dir frames s.first_frame_timestamp now
      encoderExit ++ [ClientEffect.remove_dir s.record_dir])).getLast? =
    some (ClientEffect.remove_dir s.record_dir)
  rw [← List.cons_append]
  exact List.getLast?_concat _

theorem claim_C9_witness :
    (handle_incoming_text "RECORD_STOPPED" sampleClientState [] 9 "d"
      1).1.record_active = false ∧
    (handle_incoming_text "RECORD_STOPPED" sampleClientState [] 9 "d" 1).2 =
      [ClientEffect.color_correct sampleClientState.record_dir,
       ClientEffect.remove_dir sampleClientState.record_dir] ∧
    (handle_incoming_text "RECORD_STOPPED" sampleClientState [] 9 "d"
      1).2.getLast? =
      some (ClientEffect.remove_dir sampleClientState.record_dir) := by
  obtain ⟨h1, h2, h3⟩ := claim_C9 sampleClientState [] 9 "d" 1 (by decide)
  exact ⟨h1, h2 rfl, h3⟩

theorem handle_command_start_stream (isOpen : Nat → Bool) (ws : Nat)
    (s : ServerState) :
    handle_command isOpen ws "START_STREAM" s =
      if ¬s.streaming_active then
        ({ s with streaming_active := true, controlling_client := some ws },
         broadcast_text isOpen s.connected "STREAM_STARTED")
      else (s, broadcast_text isOpen s.connected "STREAM_STARTED") := rfl

theorem handle_command_stop_stream (isOpen : Nat → Bool) (ws : Nat)
    (s : ServerState) :
    handle_command isOpen ws "STOP_STREAM" s =
      if s.controlling_client = some ws ∧
          (s.streaming_active ∨ s.recording_active) then
        if s.recording_active then
          ({ s with recording_active := false, streaming_active := false,
                    controlling_client := none },
           broadcast_text isOpen s.connected "RECORD_STOPPED" ++
             broadcast_text isOpen s.connected "STREAM_STOPPED")
        else
          ({ s with streaming_active := false, controlling_client := none },
           broadcast_text isOpen s.connected "STREAM_STOPPED")
      else (s, broadcast_text isOpen s.connected "STREAM_STOPPED") := rfl

theorem handle_command_start_record (isOpen : Nat → Bool) (ws : Nat)
    (s : ServerState) :
    handle_command isOpen ws "START_RECORD" s =
      if ¬s.streaming_active then
        (s, broadcast_text isOpen s.connected "RECORD_STOPPED")
      else if s.controlling_client = some ws then
        ({ s with recording_active := true },
         broadcast_text isOpen s.connected "RECORD_STARTED")
      else (s, broadcast_text isOpen s.connected "RECORD_STARTED") := rfl

/-- C3: when the disconnecting connection is the current controller,
`unregister_client` clears the controller slot and, whenever either flag
was set, forces both `streaming_active` and `recording_active` to false,
with no command message involved; for a non-controller the flags and the
controller slot are unchanged. -/
theorem claim_C3 (s : ServerState) (ws : Nat) :
    (s.controlling_client = some ws →
      (unregister_client ws s).controlling_client = none ∧
      ((s.streaming_active = true ∨ s.recording_active = true) →
        (unregister_client ws s).streaming_active = false ∧
        (unregister_client ws s).recording_active = false)) ∧
    (s.controlling_client ≠ some ws →
      (unregister_client ws s).controlling_client = s.controlling_client ∧
      (unregister_client ws s).streaming_active = s.streaming_active ∧
      (unregister_client ws s).recording_active = s.recording_active) := by
  unfold unregister_client
  split_ifs <;> simp_all

theorem claim_C3_witness :
    (unregister_client 0 sampleStreamingState).controlling_client = none ∧
    (unregister_client 0 sampleStreamingState).streaming_active = false ∧
    (unregister_client 0 sampleStreamingState).recording_active = false ∧
    (unregister_client 1 sampleStreamingState).streaming_active =
      sampleStreamingState.streaming_active := by
  obtain ⟨hc, -⟩ := claim_C3 sampleStreamingState 0
  obtain ⟨-, hn⟩ := claim_C3 sampleStreamingState 1
  exact ⟨(hc (by decide)).1, ((hc (by decide)).2 (Or.inl (by decide))).1,
    ((hc (by decide)).2 (Or.inl (by decide))).2, (hn (by decide)).2.1⟩

/-- C4: in every state reachable from the initial state under any
sequence of text commands and register/unregister events,
`recording_active` implies `streaming_active`. -/
theorem claim_C4 (isOpen : Nat → Bool) (es : List Event)
    (h : (runEvents isOpen es).recording_active = true) :
    (runEvents isOpen es).streaming_active = true :=
  (sessionInv_run isOpen es).1 h

theorem claim_C4_witness :
    (runEvents (fun _ => true) sampleEvents).streaming_active = true :=
  claim_C4 (fun _ => true) sampleEvents (by decide)

/-- C5: `STOP_STREAM` from the controller while streaming or recording
clears `recording_active` (emitting the RECORD_STOPPED broadcast exactly
when it was set), clears `streaming_active`, releases the controller
slot, and broadcasts STREAM_STOPPED; the RECORD_STOPPED sends precede the
STREAM_STOPPED sends. -/
theorem claim_C5 (isOpen : Nat → Bool) (s : ServerState) (ws : Nat)
    (hc : s.controlling_client = some ws)
    (ha : s.streaming_active = true ∨ s.recording_active = true) :
    (handle_command isOpen ws "STOP_STREAM" s).1.recording_active = false ∧
    (handle_command isOpen ws "STOP_STREAM" s).1.streaming_active = false ∧
    (handle_command isOpen ws "STOP_STREAM" s).1.controlling_client = none ∧
    (handle_command isOpen ws "STOP_STREAM" s).2 =
      (if s.recording_active then
        broadcast_text isOpen s.connected "RECORD_STOPPED" else []) ++
      broadcast_text isOpen s.connected "STREAM_STOPPED" := by
  rw [handle_command_stop_stream, if_pos ⟨hc, by tauto⟩]
  split_ifs with hr <;> simp_all

theorem claim_C5_witness :
    (handle_command (fun _ => true) 0 "STOP_STREAM"
      sampleStreamingState).1.recording_active = false ∧
    (handle_command (fun _ => true) 0 "STOP_STREAM"
      sampleStreamingState).1.streaming_active = false ∧
    (handle_command (fun _ => true) 0 "STOP_STREAM"
      sampleStreamingState).1.controlling_client = none ∧
    (handle_command (fun _ => true) 0 "STOP_STREAM" sampleStreamingState).2 =
      (if sampleStreamingState.recording_active then
        broadcast_text (fun _ => true) sampleStreamingState.connected
          "RECORD_STOPPED" else []) ++
      broadcast_text (fun _ => true) sampleStreamingState.connected
        "STREAM_STOPPED" :=
  claim_C5 (fun _ => true) sampleStreamingState 0 (by decide)
    (Or.inl (by decide))

/-- C6: `STOP_STREAM` from a non-controller leaves the whole server state
(flags, controller slot and connection set) unchanged, while the
STREAM_STOPPED notification is still sent to every open connection. -/
theorem claim_C6 (isOpen : Nat → Bool) (s : ServerState) (ws : Nat)
    (h : s.controlling_client ≠ some ws) :
    handle_command isOpen ws "STOP_STREAM" s =
      (s, (s.connected.filter isOpen).map (fun c => (c, "STREAM_STOPPED"))) := by
  rw [handle_command_stop_stream, if_neg (fun hx => h hx.1)]
  simp [broadcast_text]

theorem claim_C6_witness :
    handle_command (fun _ => true) 1 "STOP_STREAM" sampleStreamingState =
      (sampleStreamingState,
       (sampleStreamingState.connected.filter (fun _ => true)).map
         (fun c => (c, "STREAM_STOPPED"))) :=
  claim_C6 (fun _ => true) sampleStreamingState 1 (by decide)

/-- C7: `START_RECORD` while not streaming changes no state and
broadcasts RECORD_STOPPED as a rejection signal; while streaming it sets
`recording_active` only when the sender is the controller, yet broadcasts
RECORD_STARTED to all clients regardless of who sent it and of whether
any state changed. -/
theorem claim_C7 (isOpen : Nat → Bool) (s : ServerState) (ws : Nat) :
    (s.streaming_active = false →
      handle_command isOpen ws "START_RECORD" s =
        (s, broadcast_text isOpen s.connected "RECORD_STOPPED")) ∧
    (s.streaming_active = true →
      (handle_command isOpen ws "START_RECORD" s).1 =
        (if s.controlling_client = some ws then
          { s with recording_active := true } else s) ∧
      (handle_command isOpen ws "START_RECORD" s).2 =
        broadcast_text isOpen s.connected "RECORD_STARTED") := by
  rw [handle_command_start_record]
  constructor
  · intro h
    rw [if_pos]
    simp [h]
  · intro h
    rw [if_neg (by simp [h])]
    split_ifs <;> simp_all

theorem claim_C7_witness :
    handle_command (fun _ => true) 0 "START_RECORD" initState =
      (initState,
       broadcast_text (fun _ => true) initState.connected "RECORD_STOPPED") ∧
    (handle_command (fun _ => true) 0 "START_RECORD"
      sampleStreamingState).1 =
      (if sampleStreamingState.controlling_client = some 0 then
        { sampleStreamingState with recording_active := true }
       else sampleStreamingState) := by
  obtain ⟨h1, -⟩ := claim_C7 (fun _ => true) initState 0
  obtain ⟨-, h2⟩ := claim_C7 (fun _ => true) sampleStreamingState 0
  exact ⟨h1 (by decide), (h2 (by decide)).1⟩

/-- C8: a second `START_STREAM` from the same connection is idempotent on
state: it leaves the state exactly as after the first one (in particular
no second controller assignment) and only re-emits the always-broadcast
STREAM_STARTED notification. -/
theorem claim_C8 (isOpen : Nat → Bool) (s : ServerState) (ws : Nat) :
    handle_command isOpen ws "START_STREAM"
        (handle_command isOpen ws "START_STREAM" s).1 =
      ((handle_command isOpen ws "START_STREAM" s).1,
       broadcast_text isOpen s.connected "STREAM_STARTED") := by
  cases hb : s.streaming_active <;>
    simp [handle_command_start_stream, hb]

/-- C10: in every reachable state, `streaming_active` holds exactly when
the controller slot is occupied: the slot is never occupied while idle
and streaming is never active without a controller. -/
theorem claim_C10 (isOpen : Nat → Bool) (es : List Event) :
    ((runEvents isOpen es).streaming_active = true ↔
      (runEvents isOpen es).controlling_client ≠ none) :=
  (sessionInv_run isOpen es).2

end HoverPal
